import Mathlib

/-
Verification of the wgu-d309 repository: a shallow embedding of the ETL
pipeline in data-modeling-with-postgres/etl.py and of the one-shot
downloader WeRateDogs/get-image-predictions-file.py, with theorems about
the claims made by the repository specification.

Modelling conventions:
* pandas DataFrames become Lists of structures; one structure field per
  column actually read by the code.
* Every cursor operation (cur.execute / the song_select + fetchone pair)
  is an attempt recorded in an event trace.  A failure oracle
  fail : Nat -> Bool says whether the k-th cursor operation of the run
  raises psycopg2.Error; etl.py wraps each insert in try/except, so a
  failed insert is still an attempt and changes nothing else, while a
  failed song_select lookup skips the songplay insert of that row (it is
  caught by the outer except around the whole loop body).
* Floats (song duration / log length) are modelled by an exact type,
  Int: the code only ever compares them for exact equality.
* Timestamps are epoch milliseconds (Nat); pandas to_datetime(unit=ms)
  turns them into naive UTC instants, modelled by the same Nat.
-/

structure SongRow where
  song_id : String
  title : String
  artist_id : String
  year : Int
  duration : Int
  artist_name : String
  artist_location : String
  artist_latitude : Option Int
  artist_longitude : Option Int
deriving DecidableEq, Repr

structure LogRow where
  ts : Nat
  userId : String
  firstName : String
  lastName : String
  gender : String
  level : String
  page : String
  song : String
  artist : String
  length : Int
  sessionId : Nat
  location : String
  userAgent : String
deriving DecidableEq, Repr

structure TimeRecord where
  start_time : Nat
  hour : Nat
  day : Nat
  week : Nat
  month : Nat
  year : Nat
  weekday : Nat
deriving DecidableEq, Repr

/-- Civil-calendar decomposition of a day count since 1970-01-01 (UTC) into
(year, month, day), the standard era-based algorithm used by calendar
libraries.  All intermediate values are nonnegative for days since the
epoch, so Nat arithmetic is exact here. -/
def civilFromDays (z0 : Nat) : Nat × Nat × Nat :=
  let z := z0 + 719468
  let era := z / 146097
  let doe := z - era * 146097
  let yoe := (doe - doe / 1460 + doe / 36524 - doe / 146096) / 365
  let y := yoe + era * 400
  let doy := doe - (365 * yoe + yoe / 4 - yoe / 100)
  let mp := (5 * doy + 2) / 153
  let d := doy - (153 * mp + 2) / 5 + 1
  let m := if mp < 10 then mp + 3 else mp - 9
  (if m ≤ 2 then y + 1 else y, m, d)

/-- pandas Series.dt.dayofweek: Monday = 0 .. Sunday = 6.
1970-01-01 was a Thursday, index 3. -/
def dt_dayofweek (ms : Nat) : Nat := (ms / 86400000 + 3) % 7

/-- pandas Series.dt.weekday is an alias of Series.dt.dayofweek. -/
def dt_weekday (ms : Nat) : Nat := dt_dayofweek ms

/-- The row of time_df built in process_log_file from one converted
timestamp: the tuple (t.ts, hour, day, dayofweek, month, year, weekday)
labelled (start_time, hour, day, week, month, year, weekday). -/
def timeRecord (ms : Nat) : TimeRecord :=
  let dte := civilFromDays (ms / 86400000)
  { start_time := ms
    hour := ms % 86400000 / 3600000
    day := dte.2.2
    week := dt_dayofweek ms
    month := dte.2.1
    year := dte.1
    weekday := dt_weekday ms }

/-- The two DataFrame filters of process_log_file, in source order:
df = df[(df.userId.isin([ignored-empty-string-list]))] keeps exactly the rows whose
userId is a member of the list holding the empty string, then
df = df[df.page == NextSong]. -/
def transformLog (rows : List LogRow) : List LogRow :=
  (rows.filter (fun r => [""].contains r.userId)).filter (fun r => r.page == "NextSong")

/-- One row of the songs/artists store that song_select queries. -/
structure SongEntry where
  songId : String
  artistId : String
  title : String
  artistName : String
  duration : Int
deriving DecidableEq, Repr

/-- Modelled from the spec: the song_select parameterized query is defined in
sql_queries.py, which is not part of this repository snapshot (etl.py only
imports it).  Per the spec it looks up a SongRecord+ArtistRecord pair whose
title, artist name, and duration all match the song/artist/length
fields exactly, yielding the pair (song_id, artist_id), or no row. -/
def songSelect (store : List SongEntry) (song artist : String) (length : Int) :
    Option (String × String) :=
  (store.find? (fun e =>
      e.title == song && e.artistName == artist && e.duration == length)).map
    (fun e => (e.songId, e.artistId))

/-- The database operations etl.py can issue through its cursor/connection.
rollback is never emitted by the pipeline (the connection offers it, the
code never calls it). -/
inductive Event where
  | songWrite (song_id title artist_id : String) (year duration : Int)
  | artistWrite (artist_id name loc : String) (lat lng : Option Int)
  | timeWrite (t : TimeRecord)
  | userWrite (userId firstName lastName gender level : String)
  | songLookup (song artist : String) (length : Int)
  | songplayWrite (ts : Nat) (userId level : String) (songid artistid : Option String)
      (sessionId : Nat) (loc userAgent : String)
  | commit
  | rollback
deriving DecidableEq, Repr

/-- process_song_file: per input row, one songs insert attempt then one
artists insert attempt, each in its own try/except (the success of the
attempt, fail n, only affects console text, so it does not appear in the
trace of attempts; it still consumes two cursor-operation indices). -/
def process_song_file (fail : Nat → Bool) (rows : List SongRow) (n : Nat) :
    Nat × List Event :=
  match rows with
  | [] => (n, [])
  | r :: rest =>
    let evs := [Event.songWrite r.song_id r.title r.artist_id r.year r.duration,
                Event.artistWrite r.artist_id r.artist_name r.artist_location
                  r.artist_latitude r.artist_longitude]
    let next := process_song_file fail rest (n + 2)
    (next.1, evs ++ next.2)

/-- A run of inserts each wrapped in its own try/except: every attempt is
recorded and consumes one cursor-operation index; failures change nothing
else. -/
def insertEach (evs : List Event) (n : Nat) : Nat × List Event :=
  (n + evs.length, evs)

/-- The songplay loop of process_log_file.  The outer try wraps the
song_select execute+fetchone and the inner songplay insert; if the lookup
raises (fail n), the outer except catches it and the songplay insert of
that row is never reached.  Otherwise fetchone yields the lookup result,
song/artist ids default to none on no match, and the insert is attempted
inside its own inner try/except. -/
def songplayInserts (fail : Nat → Bool) (store : List SongEntry)
    (rows : List LogRow) (n : Nat) : Nat × List Event :=
  match rows with
  | [] => (n, [])
  | r :: rest =>
    if fail n then
      let next := songplayInserts fail store rest (n + 1)
      (next.1, Event.songLookup r.song r.artist r.length :: next.2)
    else
      let res := songSelect store r.song r.artist r.length
      let next := songplayInserts fail store rest (n + 2)
      (next.1, Event.songLookup r.song r.artist r.length ::
        Event.songplayWrite r.ts r.userId r.level (res.map Prod.fst) (res.map Prod.snd)
          r.sessionId r.location r.userAgent :: next.2)

/-- process_log_file: filter the rows (transformLog), build time_df and
insert its rows, project and insert the user rows, then run the songplay
loop. -/
def process_log_file (fail : Nat → Bool) (store : List SongEntry)
    (rows : List LogRow) (n : Nat) : Nat × List Event :=
  let df := transformLog rows
  let time_df := df.map (fun r => timeRecord r.ts)
  let step1 := insertEach (time_df.map Event.timeWrite) n
  let step2 := insertEach
    (df.map (fun r => Event.userWrite r.userId r.firstName r.lastName r.gender r.level)) step1.1
  let step3 := songplayInserts fail store df step2.1
  (step3.1, step1.2 ++ step2.2 ++ step3.2)

/-- The per-file loop of process_data: func(cur, datafile) then
conn.commit(), for each discovered file in order. -/
def processFiles {α : Type} (fail : Nat → Bool)
    (procFile : (Nat → Bool) → α → Nat → Nat × List Event)
    (files : List α) (n : Nat) : Nat × List Event :=
  match files with
  | [] => (n, [])
  | f :: rest =>
    let this := procFile fail f n
    let next := processFiles fail procFile rest this.1
    (next.1, this.2 ++ Event.commit :: next.2)

/-- process_log_file as the func argument handed to process_data. -/
def logProc (store : List SongEntry) :
    (Nat → Bool) → List LogRow → Nat → Nat × List Event :=
  fun fl rows m => process_log_file fl store rows m

/-- A directory: its files (names) and named subdirectories. -/
inductive Dir where
  | node (files : List String) (subdirs : List (String × Dir))

mutual
/-- os.walk over an existing directory: yields (dirpath, filenames) for the
directory and, recursively, every subdirectory. -/
def walkDir (path : String) : Dir → List (String × List String)
  | Dir.node files subdirs => (path, files) :: walkSubs path subdirs
def walkSubs (path : String) : List (String × Dir) → List (String × List String)
  | [] => []
  | sd :: rest => walkDir (path ++ "/" ++ sd.1) sd.2 ++ walkSubs path rest
end

/-- os.walk as called on a root path: if the root does not exist, os.walk
yields nothing at all (by default it swallows the listing error rather than
raising), so the iteration body never runs. -/
def osWalk (fs : String → Option Dir) (path : String) : List (String × List String) :=
  match fs path with
  | none => []
  | some d => walkDir path d

/-- The glob pattern *.json: a file name matches when it carries the .json
suffix. -/
def globJson (f : String) : Bool := ".json".data.isSuffixOf f.data

/-- The file-discovery loop of process_data: for every (root, _) yielded by
os.walk, glob the files of root with the .json extension and collect their
(already absolute) paths. -/
def discoverFiles (fs : String → Option Dir) (path : String) : List String :=
  (osWalk fs path).flatMap (fun rf =>
    (rf.2.filter globJson).map (fun f => rf.1 ++ "/" ++ f))

/-- Outcome type used to compare discovery as coded against discovery as
specified. -/
inductive DiscoverOutcome where
  | pathNotFound
  | found (files : List String)
deriving DecidableEq, Repr

/-- What the code does: discovery never fails, whatever the root. -/
def discoverCode (fs : String → Option Dir) (path : String) : DiscoverOutcome :=
  DiscoverOutcome.found (discoverFiles fs path)

/-- Rendered from the words of the spec, for comparison with discoverCode: fails
with a PathNotFound condition if the root does not exist, otherwise returns
the matching files. -/
def discoverSpec (fs : String → Option Dir) (path : String) : DiscoverOutcome :=
  match fs path with
  | none => DiscoverOutcome.pathNotFound
  | some _ => DiscoverOutcome.found (discoverFiles fs path)

/- The WeRateDogs downloader, get-image-predictions-file.py. -/

/-- The fixed URL the script downloads from. -/
def wrd_url : String :=
  "https://d17h27t6h515a5.cloudfront.net/topher/2017/August/599fd2ad_image-predictions/image-predictions.tsv"

/-- urlsplit(url).path: everything from the first slash after the
scheme-and-authority part. -/
def urlSplitPath (u : String) : String :=
  match u.splitOn "://" with
  | [_, rest] =>
    match rest.splitOn "/" with
    | [] => ""
    | _ :: segs => "/" ++ String.intercalate "/" segs
  | _ => u

/-- posixpath.basename: the component after the last slash.  unquote is the
identity on this URL (it holds no percent-escapes), so it is elided. -/
def posixBasename (p : String) : String :=
  (p.splitOn "/").getLastD ""

/-- file_name as computed by the script. -/
def file_name : String := posixBasename (urlSplitPath wrd_url)

/-- The observable actions of the downloader script. -/
inductive DlEvent where
  | httpGet (u : String)
  | writeFile (name : String) (content : List Nat)
  | printed (s : String)
deriving DecidableEq, Repr

/-- The downloader, top to bottom: requests.get(url) runs unconditionally
at module top level; only afterwards does the script test
os.path.isfile(file_name) and write the fetched bytes when the file is
absent.  fileOnDisk is the content of the local file when it exists, remote the
body the HTTP fetch returns. -/
def get_image_predictions (fileOnDisk : Option (List Nat)) (remote : List Nat) :
    List DlEvent :=
  DlEvent.httpGet wrd_url ::
    (match fileOnDisk with
     | none => [DlEvent.writeFile file_name remote,
                DlEvent.printed (file_name ++ " file downloaded.")]
     | some _ => [DlEvent.printed (file_name ++ " file exists.")])

/-- The content of the local file after the script runs. -/
def localAfter (fileOnDisk : Option (List Nat)) (remote : List Nat) : List Nat :=
  match fileOnDisk with
  | none => remote
  | some c => c

/- Event classifiers and counting. -/

def isSongW : Event → Bool
  | Event.songWrite _ _ _ _ _ => true
  | _ => false

def isArtistW : Event → Bool
  | Event.artistWrite _ _ _ _ _ => true
  | _ => false

def isTimeW : Event → Bool
  | Event.timeWrite _ => true
  | _ => false

def isUserW : Event → Bool
  | Event.userWrite _ _ _ _ _ => true
  | _ => false

def isLookupE : Event → Bool
  | Event.songLookup _ _ _ => true
  | _ => false

def isSongplayW : Event → Bool
  | Event.songplayWrite _ _ _ _ _ _ _ _ => true
  | _ => false

def isCommitE : Event → Bool
  | Event.commit => true
  | _ => false

def isRollbackE : Event → Bool
  | Event.rollback => true
  | _ => false

def isWriteF : DlEvent → Bool
  | DlEvent.writeFile _ _ => true
  | _ => false

/-- Number of events of a kind in a trace. -/
def countEv (p : Event → Bool) (tr : List Event) : Nat := (tr.filter p).length
/- Helper lemmas shared by the claim verifications. -/

theorem songplayInserts_filter_nil (p : Event → Bool)
    (h1 : ∀ s a l, p (Event.songLookup s a l) = false)
    (h2 : ∀ ts u lv si ai se lo ua, p (Event.songplayWrite ts u lv si ai se lo ua) = false)
    (fail : Nat → Bool) (store : List SongEntry) (rows : List LogRow) (n : Nat) :
    (songplayInserts fail store rows n).2.filter p = [] := by
  induction rows generalizing n with
  | nil => rfl
  | cons r rest ih =>
    by_cases hf : fail n <;> simp [songplayInserts, hf, h1, h2, ih]

theorem songplayInserts_lookup_count (fail : Nat → Bool) (store : List SongEntry)
    (rows : List LogRow) (n : Nat) :
    countEv isLookupE (songplayInserts fail store rows n).2 = rows.length := by
  induction rows generalizing n with
  | nil => rfl
  | cons r rest ih =>
    by_cases hf : fail n <;>
      simp [songplayInserts, hf, countEv, isLookupE, List.filter] at * <;>
      simpa [countEv] using ih _

theorem songplayInserts_noFail (store : List SongEntry) (rows : List LogRow) (n : Nat) :
    (songplayInserts (fun _ => false) store rows n).2 =
      rows.flatMap (fun r =>
        [Event.songLookup r.song r.artist r.length,
         Event.songplayWrite r.ts r.userId r.level
           ((songSelect store r.song r.artist r.length).map Prod.fst)
           ((songSelect store r.song r.artist r.length).map Prod.snd)
           r.sessionId r.location r.userAgent]) := by
  induction rows generalizing n with
  | nil => rfl
  | cons r rest ih => simp [songplayInserts, ih]

theorem songplayInserts_allFail (store : List SongEntry) (rows : List LogRow) (n : Nat) :
    (songplayInserts (fun _ => true) store rows n).2 =
      rows.map (fun r => Event.songLookup r.song r.artist r.length) := by
  induction rows generalizing n with
  | nil => rfl
  | cons r rest ih => simp [songplayInserts, ih]

theorem log_trace_filter (p : Event → Bool)
    (h1 : ∀ s a l, p (Event.songLookup s a l) = false)
    (h2 : ∀ ts u lv si ai se lo ua, p (Event.songplayWrite ts u lv si ai se lo ua) = false)
    (fail : Nat → Bool) (store : List SongEntry) (rows : List LogRow) (n : Nat) :
    (process_log_file fail store rows n).2.filter p =
      ((transformLog rows).map (fun r => Event.timeWrite (timeRecord r.ts))).filter p ++
      ((transformLog rows).map (fun r =>
        Event.userWrite r.userId r.firstName r.lastName r.gender r.level)).filter p := by
  simp [process_log_file, insertEach, List.filter_append, Function.comp_def,
    songplayInserts_filter_nil p h1 h2]

theorem log_time_count (fail : Nat → Bool) (store : List SongEntry)
    (rows : List LogRow) (n : Nat) :
    countEv isTimeW (process_log_file fail store rows n).2 = (transformLog rows).length := by
  rw [countEv, log_trace_filter isTimeW (by intro s a l; rfl) (by intros; rfl)]
  simp [List.filter_map, Function.comp_def, isTimeW]

theorem log_user_count (fail : Nat → Bool) (store : List SongEntry)
    (rows : List LogRow) (n : Nat) :
    countEv isUserW (process_log_file fail store rows n).2 = (transformLog rows).length := by
  rw [countEv, log_trace_filter isUserW (by intros; rfl) (by intros; rfl)]
  simp [List.filter_map, Function.comp_def, isUserW]

theorem log_lookup_count (fail : Nat → Bool) (store : List SongEntry)
    (rows : List LogRow) (n : Nat) :
    countEv isLookupE (process_log_file fail store rows n).2 = (transformLog rows).length := by
  simp [process_log_file, insertEach, countEv, List.filter_append, List.filter_map,
    Function.comp_def, isLookupE]
  simpa [countEv] using songplayInserts_lookup_count fail store (transformLog rows)
    (n + (transformLog rows).length + (transformLog rows).length)

theorem log_commit_free (fail : Nat → Bool) (store : List SongEntry)
    (rows : List LogRow) (n : Nat) :
    (process_log_file fail store rows n).2.filter isCommitE = [] := by
  rw [log_trace_filter isCommitE (by intros; rfl) (by intros; rfl)]
  simp [List.filter_map, Function.comp_def, isCommitE]

theorem log_rollback_free (fail : Nat → Bool) (store : List SongEntry)
    (rows : List LogRow) (n : Nat) :
    (process_log_file fail store rows n).2.filter isRollbackE = [] := by
  rw [log_trace_filter isRollbackE (by intros; rfl) (by intros; rfl)]
  simp [List.filter_map, Function.comp_def, isRollbackE]

theorem processFiles_commit_count {α : Type} (fail : Nat → Bool)
    (procFile : (Nat → Bool) → α → Nat → Nat × List Event)
    (hp : ∀ f m, (procFile fail f m).2.filter isCommitE = [])
    (files : List α) (n : Nat) :
    countEv isCommitE (processFiles fail procFile files n).2 = files.length := by
  induction files generalizing n with
  | nil => rfl
  | cons f rest ih =>
    simp [processFiles, countEv, List.filter_append, hp, List.filter_cons, isCommitE]
    simpa [countEv] using ih _

theorem processFiles_rollback_free {α : Type} (fail : Nat → Bool)
    (procFile : (Nat → Bool) → α → Nat → Nat × List Event)
    (hp : ∀ f m, (procFile fail f m).2.filter isRollbackE = [])
    (files : List α) (n : Nat) :
    (processFiles fail procFile files n).2.filter isRollbackE = [] := by
  induction files generalizing n with
  | nil => rfl
  | cons f rest ih =>
    have hd : (processFiles fail procFile (f :: rest) n).2 =
        (procFile fail f n).2 ++ Event.commit ::
          (processFiles fail procFile rest (procFile fail f n).1).2 := rfl
    rw [hd, List.filter_append, hp]
    simpa [isRollbackE] using ih (procFile fail f n).1



theorem songplayInserts_mem_kind (fail : Nat → Bool) (store : List SongEntry)
    (rows : List LogRow) (n : Nat) {e : Event}
    (he : e ∈ (songplayInserts fail store rows n).2) :
    isLookupE e = true ∨ isSongplayW e = true := by
  induction rows generalizing n with
  | nil => exact absurd he (by simp [songplayInserts])
  | cons r rest ih =>
    by_cases hf : fail n
    · simp only [songplayInserts, hf, if_true, List.mem_cons] at he
      rcases he with rfl | he
      · exact Or.inl rfl
      · exact ih _ he
    · simp [songplayInserts, hf, List.mem_cons] at he
      rcases he with rfl | rfl | he
      · exact Or.inl rfl
      · exact Or.inr rfl
      · exact ih _ he

/- Concrete inputs used by counterexamples, bug evaluations, and witnesses. -/

/-- A log row with empty userId and page NextSong: per the comment in
process_log_file such rows must be removed. -/
def badRow : LogRow :=
  { ts := 1541207073796, userId := "", firstName := "Ryan", lastName := "Smith",
    gender := "M", level := "free", page := "NextSong", song := "S", artist := "A",
    length := 100, sessionId := 583, location := "X", userAgent := "UA" }

/-- A normal NextSong log row with a non-empty userId. -/
def goodRow : LogRow :=
  { ts := 1541207073796, userId := "26", firstName := "Ryan", lastName := "Smith",
    gender := "M", level := "free", page := "NextSong", song := "S", artist := "A",
    length := 100, sessionId := 583, location := "X", userAgent := "UA" }

/-- A filesystem in which no root exists. -/
def fsMissing : String → Option Dir := fun _ => none

/-- A filesystem whose log root exists but holds no .json file. -/
def fsNoJson : String → Option Dir := fun p =>
  if p = "data/log_data" then some (Dir.node ["readme.txt"] []) else none

/-- C1: the claim says no empty-userId row is ever written to users or
songplays; the code keeps exactly those rows (the isin filter is not
negated, against its own comment) and writes them. -/
theorem c1_empty_userid_rows_are_written :
    Event.userWrite "" "Ryan" "Smith" "M" "free" ∈
      (process_log_file (fun _ => false) [] [badRow] 0).2 ∧
    Event.songplayWrite 1541207073796 "" "free" none none 583 "X" "UA" ∈
      (process_log_file (fun _ => false) [] [badRow] 0).2 := by decide

/-- C4 (bug evaluation): a NextSong row with non-empty userId does not
survive the filters although the claim counts it as surviving. -/
theorem c4_surviving_count_drops_nonempty_userid :
    (transformLog [goodRow]).length = 0 ∧
    ([goodRow].filter (fun r => r.page == "NextSong" && r.userId != "")).length = 1 := by
  decide

/-- C2 counterexample: when the song_select lookup of the only surviving row
raises, no songplay row at all is inserted (the claim says one is inserted
with null ids); the lookup attempt itself is in the trace. -/
theorem c2_lookup_failure_inserts_nothing :
    (process_log_file (fun _ => true) [] [badRow] 0).2.filter isSongplayW = [] ∧
    (process_log_file (fun _ => true) [] [badRow] 0).2.filter isLookupE =
      [Event.songLookup "S" "A" 100] := by decide

/-- C2 amended: a lookup failure is non-fatal — the lookup of every surviving row
is still attempted whatever fails — but the songplay insert of a row whose
lookup failed is skipped, not issued with nulls: with every lookup failing,
the trace holds no songplay write. -/
theorem c2_amended_lookup_failure_skips_songplay (fail : Nat → Bool)
    (store : List SongEntry) (rows : List LogRow) (n : Nat) :
    countEv isLookupE (process_log_file fail store rows n).2 = (transformLog rows).length ∧
    (process_log_file (fun _ => true) store rows n).2.filter isSongplayW = [] := by
  refine ⟨log_lookup_count fail store rows n, ?_⟩
  simp [process_log_file, insertEach, List.filter_append, List.filter_map,
    Function.comp_def, isSongplayW, songplayInserts_allFail]

/-- C3 counterexample: on a filesystem with no root at all, discovery
returns an empty result instead of the PathNotFound failure the claim
requires. -/
theorem c3_missing_root_yields_empty_not_error :
    discoverCode fsMissing "data/song_data" = DiscoverOutcome.found [] ∧
    discoverSpec fsMissing "data/song_data" = DiscoverOutcome.pathNotFound ∧
    discoverCode fsMissing "data/song_data" ≠ discoverSpec fsMissing "data/song_data" :=
  ⟨rfl, rfl, by decide⟩

/-- C3 amended: a nonexistent root and an existing root with no .json files
both produce an empty result and no error (os.walk silently yields nothing
for a missing root). -/
theorem c3_amended_empty_result_either_way (fs : String → Option Dir) (p : String)
    (h : fs p = none ∨ ∀ rf ∈ osWalk fs p, ∀ f ∈ rf.2, globJson f = false) :
    discoverCode fs p = DiscoverOutcome.found [] := by
  rcases h with h | h
  · simp [discoverCode, discoverFiles, osWalk, h]
  · simp only [discoverCode, discoverFiles, DiscoverOutcome.found.injEq]
    rw [List.flatMap_eq_nil_iff]
    intro l hl
    simp only [List.map_eq_nil_iff, List.filter_eq_nil_iff]
    intro f hf
    simp [h l hl f hf]

theorem c3_amended_empty_result_either_way_witness :
    discoverCode fsNoJson "data/log_data" = DiscoverOutcome.found [] :=
  c3_amended_empty_result_either_way fsNoJson "data/log_data" (Or.inr (by decide))
/-- C5 counterexample: with the target file already on disk, the script
still issues the HTTP fetch (requests.get runs before the isfile test); it
merely skips the write. -/
theorem c5_fetch_issued_despite_existing_file :
    DlEvent.httpGet wrd_url ∈ get_image_predictions (some [7]) [1, 2] ∧
    (get_image_predictions (some [7]) [1, 2]).filter isWriteF = [] := by decide

/-- C5 amended: the HTTP fetch is issued unconditionally; only the write to
disk is conditional — when the file exists nothing is written and its
contents stay unchanged, when it is absent the fetched bytes are written. -/
theorem c5_amended_fetch_unconditional (disk : Option (List Nat)) (remote : List Nat) :
    DlEvent.httpGet wrd_url ∈ get_image_predictions disk remote ∧
    (∀ c, disk = some c →
      (get_image_predictions disk remote).filter isWriteF = [] ∧
      localAfter disk remote = c) ∧
    (disk = none →
      DlEvent.writeFile file_name remote ∈ get_image_predictions disk remote ∧
      localAfter disk remote = remote) := by
  cases disk <;> simp [get_image_predictions, localAfter, isWriteF]

theorem c5_amended_fetch_unconditional_witness :
    (get_image_predictions (some [7]) [1, 2]).filter isWriteF = [] ∧
    localAfter (some [7]) [1, 2] = [7] :=
  (c5_amended_fetch_unconditional (some [7]) [1, 2]).2.1 [7] rfl

/-- C6: write failures never abort a file: the per-file attempt counts of
time, user, and lookup operations are those of the filtered rows whatever
the failure oracle says; the pipeline never rolls back; each processed file
ends in exactly one commit, placed after all operations of that file and
before those of the next file. -/
theorem c6_write_failures_do_not_abort_file (fail : Nat → Bool)
    (store : List SongEntry) (files : List (List LogRow)) (n : Nat) :
    countEv isCommitE (processFiles fail (logProc store) files n).2 = files.length ∧
    countEv isRollbackE (processFiles fail (logProc store) files n).2 = 0 ∧
    (∀ rows m,
      countEv isTimeW (process_log_file fail store rows m).2 = (transformLog rows).length ∧
      countEv isUserW (process_log_file fail store rows m).2 = (transformLog rows).length ∧
      countEv isLookupE (process_log_file fail store rows m).2 = (transformLog rows).length) ∧
    (∀ rows rest m,
      (processFiles fail (logProc store) (rows :: rest) m).2 =
        (process_log_file fail store rows m).2 ++ Event.commit ::
          (processFiles fail (logProc store) rest (process_log_file fail store rows m).1).2) := by
  refine ⟨?_, ?_, ?_, ?_⟩
  · exact processFiles_commit_count fail (logProc store)
      (fun f m => log_commit_free fail store f m) files n
  · rw [countEv, processFiles_rollback_free fail (logProc store)
      (fun f m => log_rollback_free fail store f m) files n]
    rfl
  · exact fun rows m => ⟨log_time_count fail store rows m,
      log_user_count fail store rows m, log_lookup_count fail store rows m⟩
  · intro rows rest m
    rfl

/-- C7: songplay resolution.  In a failure-free run every surviving row
yields exactly one songplay write whose song/artist ids are the projections
of the song_select result for the song, artist, and length of the row; and the
lookup finds a row precisely when the store holds an entry whose title,
artist name, and duration all equal them exactly — so on no match both ids
are none and the write still happens. -/
theorem c7_songplay_ids_from_exact_lookup (store : List SongEntry)
    (rows : List LogRow) (n : Nat) :
    ((process_log_file (fun _ => false) store rows n).2.filter isSongplayW =
      (transformLog rows).map (fun r =>
        Event.songplayWrite r.ts r.userId r.level
          ((songSelect store r.song r.artist r.length).map Prod.fst)
          ((songSelect store r.song r.artist r.length).map Prod.snd)
          r.sessionId r.location r.userAgent)) ∧
    (∀ song artist len,
      (songSelect store song artist len).isSome = true ↔
        ∃ e ∈ store, e.title = song ∧ e.artistName = artist ∧ e.duration = len) := by
  constructor
  · simp [process_log_file, insertEach, List.filter_append, List.filter_map,
      Function.comp_def, isSongplayW, songplayInserts_noFail, List.filter_flatMap,
      ← List.map_eq_flatMap]
  · intro song artist len
    simp [songSelect, List.find?_isSome, and_assoc]

/-- C8: exactly one TimeRecord per surviving row, derived from its
millisecond timestamp (whatever the failure oracle says), and the sample
timestamp 1541207073796 decomposes to 2018-11-03 01:04:33 UTC, a Saturday:
hour 1, day 3, month 11, year 2018, day-of-week 5 in both the week and
weekday columns (the source fills the week column from dayofweek). -/
theorem c8_time_records_per_row_and_sample (fail : Nat → Bool)
    (store : List SongEntry) (rows : List LogRow) (n : Nat) :
    ((process_log_file fail store rows n).2.filter isTimeW =
      (transformLog rows).map (fun r => Event.timeWrite (timeRecord r.ts))) ∧
    timeRecord 1541207073796 =
      { start_time := 1541207073796, hour := 1, day := 3, week := 5,
        month := 11, year := 2018, weekday := 5 } := by
  constructor
  · rw [log_trace_filter isTimeW (by intros; rfl) (by intros; rfl)]
    simp [List.filter_map, Function.comp_def, isTimeW]
  · decide

/-- C9: process_song_file issues, for every input row in order, one songs
insert then one artists insert with exactly the tuples the source builds,
whatever the failure oracle says; in all, one write per table per row. -/
theorem c9_one_song_and_artist_write_per_row (fail : Nat → Bool)
    (rows : List SongRow) (n : Nat) :
    ((process_song_file fail rows n).2 =
      rows.flatMap (fun r =>
        [Event.songWrite r.song_id r.title r.artist_id r.year r.duration,
         Event.artistWrite r.artist_id r.artist_name r.artist_location
           r.artist_latitude r.artist_longitude])) ∧
    countEv isSongW (process_song_file fail rows n).2 = rows.length ∧
    countEv isArtistW (process_song_file fail rows n).2 = rows.length := by
  have htr : ∀ (rs : List SongRow) (m : Nat), (process_song_file fail rs m).2 =
      rs.flatMap (fun r =>
        [Event.songWrite r.song_id r.title r.artist_id r.year r.duration,
         Event.artistWrite r.artist_id r.artist_name r.artist_location
           r.artist_latitude r.artist_longitude]) := by
    intro rs
    induction rs with
    | nil => intro m; rfl
    | cons r rest ih => intro m; simp [process_song_file, ih]
  refine ⟨htr rows n, ?_, ?_⟩ <;>
    rw [countEv, htr rows n, List.filter_flatMap] <;>
    induction rows with
    | nil => rfl
    | cons r rest ih => simp [Function.comp_def, isSongW, isArtistW]

/-- C10: every TimeRecord written to the time table has equal week and
weekday fields: the source fills the week column from dt.dayofweek and the
weekday column from dt.weekday, which is the same accessor. -/
theorem c10_week_column_equals_weekday_column (fail : Nat → Bool)
    (store : List SongEntry) (rows : List LogRow) (n : Nat) (t : TimeRecord)
    (h : Event.timeWrite t ∈ (process_log_file fail store rows n).2) :
    t.week = t.weekday := by
  simp only [process_log_file, insertEach, List.mem_append, List.map_map,
    List.mem_map, Function.comp_def] at h
  rcases h with (⟨r, _, he⟩ | ⟨r, _, he⟩) | h
  · have ht : timeRecord r.ts = t := by simpa using he
    rw [← ht]
    rfl
  · exact absurd he (by simp)
  · rcases songplayInserts_mem_kind fail store (transformLog rows) _ h with hk | hk <;>
      simp [isLookupE, isSongplayW] at hk

theorem c10_week_column_equals_weekday_column_witness :
    (timeRecord 1541207073796).week = (timeRecord 1541207073796).weekday :=
  c10_week_column_equals_weekday_column (fun _ => false) [] [badRow] 0
    (timeRecord 1541207073796) (by decide)
